import Mathlib

/-!
Verification development for the LivingMemoryManual plugin (src/main.py).

The Python module is shallowly embedded: every function below is a direct
translation of the corresponding Python function.  Stateful behaviour (the
cached `self._memory_engine` handle) is made explicit by passing the cache in
and returning the updated cache.  Python floats are modelled as rationals,
raised exceptions as explicit outcome flags, and the external collaborators
(extension registry, LLM provider, `add_memory`) as environment parameters
describing their observable behaviour.
-/

namespace LivingMemoryManual

/-- ASCII whitespace stripped by Python str.strip / matched by regex \s. -/
def isPySpace (c : Char) : Bool :=
  c = ' ' || c = '\t' || c = '\n' || c = '\r' || c = Char.ofNat 11 || c = Char.ofNat 12

/-- Python str.strip(): drop leading and trailing whitespace. -/
def pyStrip (s : String) : String :=
  String.mk (((s.data.dropWhile isPySpace).reverse.dropWhile isPySpace).reverse)

/-- Python slicing s[:n] over code points. -/
def pyTake (n : Nat) (s : String) : String := String.mk (s.data.take n)

/-- JSON values as produced by Python json.loads. -/
inductive JValue where
  | null
  | bool (b : Bool)
  | num (q : ℚ)
  | str (s : String)
  | arr (xs : List JValue)
  | obj (kvs : List (String × JValue))

/-- Python dict lookup d.get(k): with duplicate JSON keys the last wins,
matching the dict json.loads builds. -/
def objGet (kvs : List (String × JValue)) (k : String) : Option JValue :=
  (kvs.reverse.find? (fun kv => kv.1 == k)).map (fun kv => kv.2)

/-- Value of key k when present and a JSON list, as in
isinstance(parsed.get(k), list). -/
def getList (kvs : List (String × JValue)) (k : String) : Option (List JValue) :=
  match objGet kvs k with
  | some (.arr xs) => some xs
  | _ => none

/-- Shallow rendering of a json.loads value, used for the elements of the
one-level pyStr rendering below. -/
def pyStrAtom : JValue → String
  | .null => "None"
  | .bool b => if b then "True" else "False"
  | .num q => if q.den = 1 then toString q.num else toString q
  | .str s => s
  | .arr _ => "[...]"
  | .obj _ => "\x7b...\x7d"

/-- Python str() on a json.loads value.  Exact for strings and scalars (the
only cases the code exercises in the claims); lists and dicts are rendered
one level deep, an approximation of Python's recursive repr formatting. -/
def pyStr : JValue → String
  | .null => "None"
  | .bool b => if b then "True" else "False"
  | .num q => if q.den = 1 then toString q.num else toString q
  | .str s => s
  | .arr xs => "[" ++ String.intercalate ", " (xs.map pyStrAtom) ++ "]"
  | .obj kvs =>
      "\x7b" ++ String.intercalate ", " (kvs.map (fun kv => kv.1 ++ ": " ++ pyStrAtom kv.2))
        ++ "\x7d"

/-- isinstance(v, list) on a json.loads value. -/
def JValue.isArr : JValue → Bool
  | .arr _ => true
  | _ => false

/-- Python truthiness of a json.loads value. -/
def pyTruthy : JValue → Bool
  | .null => false
  | .bool b => b
  | .num q => decide (q ≠ 0)
  | .str s => !(s == "")
  | .arr xs => !xs.isEmpty
  | .obj kvs => !kvs.isEmpty

/-- Substring search on char lists (Python `needle in hay` for strings). -/
def subListSearch (needle : List Char) : List Char → Bool
  | [] => needle.isEmpty
  | c :: rest => needle.isPrefixOf (c :: rest) || subListSearch needle rest

/-- Python `k in data` membership test.  Returns a Bool for the container
types (dict key, list element, string substring); the numeric/bool/null cases
raise TypeError in Python and are handled by the caller before use. -/
def pyContainsB (data : JValue) (k : String) : Bool :=
  match data with
  | .obj kvs => (objGet kvs k).isSome
  | .arr xs => xs.any (fun v => match v with | .str t => t == k | _ => false)
  | .str s => subListSearch k.data s.data
  | _ => false

/-- Digits to a natural number. -/
def digitsVal (ds : List Char) : Nat := ds.foldl (fun a c => a * 10 + (c.toNat - 48)) 0

/-- Split a leading digit run. -/
def takeDigits (cs : List Char) : List Char × List Char :=
  (cs.takeWhile Char.isDigit, cs.dropWhile Char.isDigit)

/-!
A small JSON parser modelling Python json.loads (strict mode).  The subset
covers the JSON grammar used by the code: null/true/false, numbers with
optional fraction and exponent, strings with the basic escapes (the \uXXXX
escape and the NaN/Infinity extensions are not modelled), arrays, objects.
A parse failure stands for json.JSONDecodeError.
-/

/-- JSON insignificant whitespace. -/
def jsonSkipWs (cs : List Char) : List Char :=
  cs.dropWhile (fun c => c = ' ' || c = '\t' || c = '\n' || c = '\r')

/-- Single-character string escapes accepted by json.loads. -/
def jsonEscape (c : Char) : Option Char :=
  if c = '"' then some '"'
  else if c = '\\' then some '\\'
  else if c = '/' then some '/'
  else if c = 'n' then some '\n'
  else if c = 't' then some '\t'
  else if c = 'r' then some '\r'
  else if c = 'b' then some (Char.ofNat 8)
  else if c = 'f' then some (Char.ofNat 12)
  else none

/-- Parse the body of a JSON string after the opening quote; returns the
content and the remaining input. -/
def jsonParseStringBody : Nat → List Char → Option (List Char × List Char)
  | 0, _ => none
  | _, [] => none
  | fuel + 1, c :: rest =>
    if c = '"' then some ([], rest)
    else if c = '\\' then
      match rest with
      | e :: rest2 =>
        match jsonEscape e with
        | some ch => (jsonParseStringBody fuel rest2).map (fun p => (ch :: p.1, p.2))
        | none => none
      | [] => none
    else (jsonParseStringBody fuel rest).map (fun p => (c :: p.1, p.2))

/-- Parse a JSON number (optional minus, integer part without leading zeros,
optional fraction, optional exponent). -/
def jsonParseNumber (cs : List Char) : Option (ℚ × List Char) :=
  let signedTail := match cs with
    | '-' :: r => (true, r)
    | _ => (false, cs)
  let neg := signedTail.1
  let ipRun := takeDigits signedTail.2
  let ip := ipRun.1
  if ip = [] then none
  else if 1 < ip.length ∧ ip.head? = some '0' then none
  else
    let base : ℚ := (digitsVal ip : ℚ)
    let fracStep : Option (ℚ × List Char) :=
      match ipRun.2 with
      | '.' :: r =>
        let fpRun := takeDigits r
        if fpRun.1 = [] then none
        else some (base + (digitsVal fpRun.1 : ℚ) / (10 : ℚ) ^ fpRun.1.length, fpRun.2)
      | _ => some (base, ipRun.2)
    match fracStep with
    | none => none
    | some (m, cs3) =>
      let signedM : ℚ := if neg then -m else m
      match cs3 with
      | 'e' :: r | 'E' :: r =>
        let expTail : Int × List Char := match r with
          | '+' :: r2 => (1, r2)
          | '-' :: r2 => (-1, r2)
          | _ => (1, r)
        let dsRun := takeDigits expTail.2
        if dsRun.1 = [] then none
        else some (signedM * (10 : ℚ) ^ (expTail.1 * (digitsVal dsRun.1 : Int)), dsRun.2)
      | _ => some (signedM, cs3)

/-- What the recursive-descent parser is currently parsing: a single value,
the items of a non-empty array, or the members of a non-empty object. -/
inductive JMode where
  | value
  | items
  | members

/-- The corresponding partial results. -/
inductive JOut where
  | value (v : JValue)
  | items (vs : List JValue)
  | members (kvs : List (String × JValue))

/-- The recursive-descent core of the parser, fuelled so that the recursion
is structural. -/
def jsonP : Nat → JMode → List Char → Option (JOut × List Char)
  | 0, _, _ => none
  | fuel + 1, .value, cs =>
    match jsonSkipWs cs with
    | [] => none
    | 't' :: 'r' :: 'u' :: 'e' :: r => some (.value (.bool true), r)
    | 'f' :: 'a' :: 'l' :: 's' :: 'e' :: r => some (.value (.bool false), r)
    | 'n' :: 'u' :: 'l' :: 'l' :: r => some (.value .null, r)
    | '"' :: r =>
      (jsonParseStringBody (fuel + 1) r).map (fun p => (JOut.value (.str (String.mk p.1)), p.2))
    | c :: r =>
      if c = '[' then
        match jsonSkipWs r with
        | ']' :: r2 => some (.value (.arr []), r2)
        | _ =>
          match jsonP fuel .items r with
          | some (.items vs, r2) => some (.value (.arr vs), r2)
          | _ => none
      else if c = Char.ofNat 123 then
        match jsonSkipWs r with
        | c2 :: r2 =>
          if c2 = Char.ofNat 125 then some (.value (.obj []), r2)
          else
            match jsonP fuel .members r with
            | some (.members kvs, r3) => some (.value (.obj kvs), r3)
            | _ => none
        | [] => none
      else (jsonParseNumber (c :: r)).map (fun p => (JOut.value (.num p.1), p.2))
  | fuel + 1, .items, cs =>
    match jsonP fuel .value cs with
    | some (.value v, r) =>
      match jsonSkipWs r with
      | ',' :: r2 =>
        match jsonP fuel .items r2 with
        | some (.items vs, r3) => some (.items (v :: vs), r3)
        | _ => none
      | ']' :: r2 => some (.items [v], r2)
      | _ => none
    | _ => none
  | fuel + 1, .members, cs =>
    match jsonSkipWs cs with
    | '"' :: r =>
      match jsonParseStringBody (fuel + 1) r with
      | none => none
      | some (key, r2) =>
        match jsonSkipWs r2 with
        | ':' :: r3 =>
          match jsonP fuel .value r3 with
          | some (.value v, r4) =>
            match jsonSkipWs r4 with
            | ',' :: r5 =>
              match jsonP fuel .members r5 with
              | some (.members kvs, r6) => some (.members ((String.mk key, v) :: kvs), r6)
              | _ => none
            | c :: r5 => if c = Char.ofNat 125 then some (.members [(String.mk key, v)], r5)
                         else none
            | [] => none
          | _ => none
        | _ => none
    | _ => none

/-- Python json.loads: parse one value and require only whitespace after it. -/
def json_loads (s : String) : Option JValue :=
  match jsonP (2 * s.data.length + 4) .value s.data with
  | some (.value v, rest) => if jsonSkipWs rest = [] then some v else none
  | _ => none

/-!
Metadata Enricher: `_analyze_with_llm` (src/main.py lines 242-305).
-/

/-- The markdown fence cleanup of `_analyze_with_llm`: strip(), then, when the
text starts with a triple backtick fence, remove a leading fence with optional
json tag plus following whitespace, and a trailing fence plus preceding
whitespace. -/
def stripCodeFence (s : String) : String :=
  let t := (pyStrip s).data
  if ("```".data).isPrefixOf t then
    let t1 := if ("json".data).isPrefixOf (t.drop 3) then t.drop 7 else t.drop 3
    let t1 := t1.dropWhile isPySpace
    if ("```".data).isPrefixOf t1.reverse then
      String.mk (((t1.reverse.drop 3).dropWhile isPySpace).reverse)
    else String.mk t1
  else pyStrip s

/-- Observable behaviour of the chat-completion provider lookup and call:
no provider configured, the call (or a later attribute access) raising, or a
reply with the given completion_text. -/
inductive ProviderOutcome where
  | noProvider
  | raises
  | replies (completion_text : String)
deriving DecidableEq

/-- The dict `_analyze_with_llm` returns, as its caller observes it: either
the empty mapping, or a mapping whose three relevant keys hold the two lists
and the sentiment string. -/
inductive AnalyzeResult where
  | empty
  | ok (topics key_facts : List JValue) (sentiment : String)

/-- The sentiment values accepted by the validation in `_analyze_with_llm`
and `lmput_cmd`. -/
def validSentiments : List String := ["positive", "negative", "neutral"]

/-- Whether a JSON value passes `data["sentiment"] in ("positive",
"negative", "neutral")`. -/
def sentimentOk : JValue → Bool
  | .str s => decide (s ∈ validSentiments)
  | _ => false

/-- The field validation `_analyze_with_llm` applies to a parsed JSON object:
non-list topics become a 50-character excerpt, non-list key_facts become the
full text, unknown sentiment becomes neutral. -/
def processObj (text : String) (kvs : List (String × JValue)) :
    List JValue × List JValue × String :=
  let topics := match getList kvs "topics" with
    | some xs => xs
    | none => [JValue.str (pyTake 50 text)]
  let key_facts := match getList kvs "key_facts" with
    | some xs => xs
    | none => [JValue.str text]
  let sentiment := match objGet kvs "sentiment" with
    | some (.str s) => if s ∈ validSentiments then s else "neutral"
    | _ => "neutral"
  (topics, key_facts, sentiment)

/-- Processing of a provider reply in `_analyze_with_llm`: empty reply is
returned as the empty dict, a reply that does not parse raises
json.JSONDecodeError (caught, empty dict), and a parsed non-object raises
AttributeError on .get (caught by the broad except, empty dict). -/
def processReply (text rt : String) : AnalyzeResult :=
  if rt = "" then .empty
  else
    match json_loads (stripCodeFence rt) with
    | none => .empty
    | some (.obj kvs) =>
      let p := processObj text kvs
      .ok p.1 p.2.1 p.2.2
    | some _ => .empty

/-- Model of `_analyze_with_llm`: a total function of the provider outcome; every
failure path is caught and converted to the empty dict. -/
def analyzeWithLlm (text : String) (p : ProviderOutcome) : AnalyzeResult :=
  match p with
  | .noProvider => .empty
  | .raises => .empty
  | .replies rt => processReply text rt

/-!
Engine Locator: `_discover_memory_engine`, `_extract_engine` and
`_ensure_db_connection` (src/main.py lines 69-214).  The LivingMemory plugin
object is modelled by the attribute chains the code probes; each `getattr`
with a None default becomes an Option field.  `DocStorage.reinit` describes
what `await doc_storage.initialize()` would do: raise, or leave `engine` at
the given value.
-/

/-- Outcome of the one re-initialization attempt on DocumentStorage. -/
inductive ReinitRes where
  | raises
  | sets (engine : Option Unit)
deriving DecidableEq

/-- faiss_db.document_storage with its probed `engine` connection attribute. -/
structure DocStorage where
  engine : Option Unit
  reinit : ReinitRes
deriving DecidableEq

/-- vector_retriever.faiss_db. -/
structure FaissDb where
  document_storage : Option DocStorage
deriving DecidableEq

/-- hybrid_retriever.vector_retriever. -/
structure VectorRetriever where
  faiss_db : Option FaissDb
deriving DecidableEq

/-- memory_engine.hybrid_retriever. -/
structure HybridRetriever where
  vector_retriever : Option VectorRetriever
deriving DecidableEq

/-- The MemoryEngine handle owned by LivingMemory. -/
structure EngineHandle where
  hybrid_retriever : Option HybridRetriever
deriving DecidableEq

/-- star_cls.initializer with its optional memory_engine. -/
structure PluginIni where
  memory_engine : Option EngineHandle
deriving DecidableEq

/-- A loaded Star plugin instance: its runtime class name and its optional
initializer attribute. -/
structure StarObj where
  className : String
  initializer : Option PluginIni
deriving DecidableEq

/-- StarMetadata as returned by the registry, with its star_cls attribute. -/
structure StarMetadata where
  star_cls : Option StarObj
deriving DecidableEq

/-- The host's extension registry: get_registered_star("LivingMemory") and
get_all_stars(). -/
structure Registry where
  byName : Option StarMetadata
  allStars : List StarMetadata
deriving DecidableEq

def emptyRegistryLog : String := "LivingMemoryManual: 已注册插件列表为空"

def notFoundLog : String :=
  "LivingMemoryManual: 未找到 LivingMemoryPlugin 实例。请确保 LivingMemory 插件已安装并启用"

def initializerNoneLog : String :=
  "LivingMemoryManual: 找到 LivingMemoryPlugin 但 initializer 为 None"

def engineNoneLog : String :=
  "LivingMemoryManual: 找到 LivingMemoryPlugin 但 memory_engine 尚未初始化"

def engineFoundLog : String :=
  "LivingMemoryManual: 成功获取 LivingMemory 的 MemoryEngine 实例"

/-- Model of `_extract_engine`: two sequential optional-field accesses, each absence
logged with its own message; returns the engine and the log lines. -/
def extractEngine (so : StarObj) : Option EngineHandle × List String :=
  match so.initializer with
  | none => (none, [initializerNoneLog])
  | some ini =>
    match ini.memory_engine with
    | none => (none, [engineNoneLog])
    | some e => (some e, [engineFoundLog])

/-- The class-name matching loop of `_discover_memory_engine` method 2:
first instance whose runtime type name is LivingMemoryPlugin. -/
def findStar : List StarMetadata → Option StarObj
  | [] => none
  | m :: rest =>
    match m.star_cls with
    | some so => if so.className = "LivingMemoryPlugin" then some so else findStar rest
    | none => findStar rest

/-- Result of a `_discover_memory_engine` call: the returned handle, the new
cached handle, the warnings logged, and whether the registry was consulted
(false exactly when the cached handle was returned). -/
structure DiscoverOut where
  found : Option EngineHandle
  newCache : Option EngineHandle
  logs : List String
  scanned : Bool
deriving DecidableEq

/-- Method 2 of `_discover_memory_engine`: enumerate all registered stars. -/
def discoverScan (reg : Registry) : DiscoverOut :=
  if reg.allStars.isEmpty then ⟨none, none, [emptyRegistryLog], true⟩
  else
    match findStar reg.allStars with
    | some so =>
      let p := extractEngine so
      ⟨p.1, p.1, p.2, true⟩
    | none => ⟨none, none, [notFoundLog], true⟩

/-- Model of `_discover_memory_engine`: cached handle short-circuits; otherwise method
1 (name lookup) and, when it yields no instance, method 2 (full scan).  The
cache is set exactly when extraction succeeds. -/
def discoverMemoryEngine (cache : Option EngineHandle) (reg : Registry) : DiscoverOut :=
  match cache with
  | some e => ⟨some e, some e, [], false⟩
  | none =>
    match reg.byName with
    | some meta =>
      match meta.star_cls with
      | some so =>
        let p := extractEngine so
        ⟨p.1, p.1, p.2, true⟩
      | none => discoverScan reg
    | none => discoverScan reg

/-- Result of `_ensure_db_connection`: the returned bool, the cache after the
call, and how many times `doc_storage.initialize()` was awaited. -/
structure EnsureOut where
  ok : Bool
  newCache : Option EngineHandle
  initCalls : Nat
deriving DecidableEq

/-- Model of `_ensure_db_connection`: probe
memory_engine.hybrid_retriever.vector_retriever.faiss_db.document_storage.engine;
any absent intermediate attribute abandons probing with True; an absent
terminal engine triggers one re-initialization, whose failure clears the
cache and returns False; an exception from the re-initialization is caught
and converted to True. -/
def ensureDbConnection (cache : Option EngineHandle) (me : EngineHandle) : EnsureOut :=
  match me.hybrid_retriever with
  | none => ⟨true, cache, 0⟩
  | some hybrid =>
    match hybrid.vector_retriever with
    | none => ⟨true, cache, 0⟩
    | some vecRet =>
      match vecRet.faiss_db with
      | none => ⟨true, cache, 0⟩
      | some faissDb =>
        match faissDb.document_storage with
        | none => ⟨true, cache, 0⟩
        | some docStorage =>
          match docStorage.engine with
          | some _ => ⟨true, cache, 0⟩
          | none =>
            match docStorage.reinit with
            | .raises => ⟨true, cache, 1⟩
            | .sets (some _) => ⟨true, cache, 1⟩
            | .sets none => ⟨false, none, 1⟩

/-!
Insertion Pipeline: `insert_memory` (src/main.py lines 311-421) and the
`/lmput` command body (lines 526-669).
-/

/-- Python float(s) on a string: optional surrounding whitespace, optional
sign, digits with optional fraction and exponent (the inf/nan spellings are
not modelled). -/
def pyFloatStr (s : String) : Option ℚ :=
  let cs := ((s.data.dropWhile isPySpace).reverse.dropWhile isPySpace).reverse
  let signedTail := match cs with
    | '-' :: r => ((-1 : ℚ), r)
    | '+' :: r => ((1 : ℚ), r)
    | _ => ((1 : ℚ), cs)
  let ipRun := takeDigits signedTail.2
  let fracStep : Option (ℚ × List Char) :=
    match ipRun.2 with
    | '.' :: r =>
      let fpRun := takeDigits r
      if ipRun.1 = [] ∧ fpRun.1 = [] then none
      else some ((digitsVal ipRun.1 : ℚ) + (digitsVal fpRun.1 : ℚ) / (10 : ℚ) ^ fpRun.1.length,
        fpRun.2)
    | _ => if ipRun.1 = [] then none else some ((digitsVal ipRun.1 : ℚ), ipRun.2)
  match fracStep with
  | none => none
  | some (m, cs3) =>
    match cs3 with
    | 'e' :: r | 'E' :: r =>
      let expTail : Int × List Char := match r with
        | '+' :: r2 => (1, r2)
        | '-' :: r2 => (-1, r2)
        | _ => (1, r)
      let dsRun := takeDigits expTail.2
      if dsRun.1 = [] ∨ dsRun.2 ≠ [] then none
      else some (signedTail.1 * m * (10 : ℚ) ^ (expTail.1 * (digitsVal dsRun.1 : Int)))
    | [] => some (signedTail.1 * m)
    | _ => none

/-- Python float(x) on a json.loads value; none models the TypeError or
ValueError float() raises. -/
def pyFloat : JValue → Option ℚ
  | .num q => some q
  | .bool b => some (if b then 1 else 0)
  | .str s => pyFloatStr s
  | _ => none

/-- Python min(a, b): the first argument unless the second is smaller. -/
def pyMin (a b : ℚ) : ℚ := if a ≤ b then a else b

/-- Python max(a, b): the first argument unless the second is larger. -/
def pyMax (a b : ℚ) : ℚ := if b ≤ a then a else b

/-- The importance clamp max(0.0, min(1.0, importance)). -/
def clamp (q : ℚ) : ℚ := pyMax 0 (pyMin 1 q)

/-- The canonical_summary construction shared by `insert_memory` (lines
366-371) and `lmput_cmd` (lines 605-611): content, then " | ", then the first
five key facts joined by the fullwidth semicolon, the fact list being
appended only when non-empty. -/
def canonicalSummary (text : String) (facts : List JValue) : String :=
  if facts.isEmpty then text
  else text ++ " | " ++ String.intercalate "；" ((facts.take 5).map pyStr)

/-- The rich_metadata mapping passed to add_memory.  canonical_summary and
persona_summary stay JSON values because `/lmput` passes caller-supplied
values through unchanged. -/
structure RichMetadata where
  topics : List JValue
  key_facts : List JValue
  sentiment : String
  interaction_type : String
  canonical_summary : JValue
  persona_summary : JValue
  summary_schema_version : String
  summary_quality : String

/-- The arguments of a MemoryEngine.add_memory call. -/
structure AddMemoryArgs where
  content : String
  session_id : String
  persona_id : Option String
  importance : ℚ
  metadata : RichMetadata

/-- Behaviour of the external add_memory call: a document id, or a raise. -/
inductive AddOutcome where
  | ok (id : String)
  | raises (msg : String)
deriving DecidableEq

/-- The ambient state and external behaviour an insertion runs against. -/
structure Env where
  registry : Registry
  cache : Option EngineHandle
  defaultImportance : ℚ
  provider : ProviderOutcome
  addOutcome : AddOutcome

/-- The result dict of insert_memory. -/
structure InsertResult where
  success : Bool
  message : String
  memory_id : Option String

/-- An insert_memory run: its result dict, whether `_discover_memory_engine`
was called, the add_memory call (when one was made), and the cache after the
call. -/
structure InsertOut where
  result : InsertResult
  engineLookup : Bool
  addMemoryCall : Option AddMemoryArgs
  newCache : Option EngineHandle

def emptyTextMsg : String := "记忆文本不能为空"

def tooLongMsg (n : Nat) : String :=
  "记忆文本过长 (" ++ toString n ++ " 字符)，最大 4096 字符"

def engineNotFoundReplyMsg : String :=
  "无法获取 LivingMemory 的 MemoryEngine。请确保 LivingMemory 插件已安装、已启用，且初始化完成"

def dbFailMsg : String :=
  "FAISS DocumentStorage 数据库连接无法初始化。请尝试重启 AstrBot 或检查 LivingMemory 的日志"

def insertOkMsg : String := "记忆插入成功"

def insertFailMsg (e : String) : String := "插入记忆失败: " ++ e

/-- Model of `insert_memory`: validate, locate, normalize importance, enrich, build
metadata, ensure the connection, write.  Every dependency failure is absorbed
into a failure dict; the function is total (the Python function never
raises for string/float-typed arguments). -/
def insertMemory (env : Env) (text session_id : String) (persona_id : Option String)
    (importance : Option ℚ) : InsertOut :=
  if pyStrip text = "" then
    ⟨⟨false, emptyTextMsg, none⟩, false, none, env.cache⟩
  else
    let t := pyStrip text
    if t.length > 4096 then
      ⟨⟨false, tooLongMsg t.length, none⟩, false, none, env.cache⟩
    else
      let d := discoverMemoryEngine env.cache env.registry
      match d.found with
      | none => ⟨⟨false, engineNotFoundReplyMsg, none⟩, true, none, d.newCache⟩
      | some me =>
        let imp := clamp (importance.getD env.defaultImportance)
        let tks := match analyzeWithLlm t env.provider with
          | .empty => ([JValue.str (pyTake 50 t)], [JValue.str t], "neutral")
          | .ok tp kf s => (tp, kf, s)
        let md : RichMetadata :=
          ⟨tks.1, tks.2.1, tks.2.2, "private_chat",
            .str (canonicalSummary t tks.2.1), .str t, "v2", "normal"⟩
        let e := ensureDbConnection d.newCache me
        if e.ok = false then
          ⟨⟨false, dbFailMsg, none⟩, true, none, e.newCache⟩
        else
          let args : AddMemoryArgs := ⟨t, session_id, persona_id, imp, md⟩
          match env.addOutcome with
          | .ok id => ⟨⟨true, insertOkMsg, some id⟩, true, some args, e.newCache⟩
          | .raises m => ⟨⟨false, insertFailMsg m, none⟩, true, some args, e.newCache⟩

def requiredFields : List String := ["text", "topics", "key_facts", "sentiment"]

def missingFieldsMsg (missing : List String) : String :=
  "缺少必填字段: " ++ String.intercalate ", " missing
    ++ "\n必须包含: text, topics, key_facts, sentiment"

def textEmptyMsg : String := "text 不能为空"

def topicsTypeMsg : String := "topics 必须是一个数组，例如: [\"主题1\", \"主题2\"]"

def keyFactsTypeMsg : String := "key_facts 必须是一个数组，例如: [\"事实1\", \"事实2\"]"

def sentimentTypeMsg : String := "sentiment 必须是 positive / negative / neutral 之一"

def noSessionMsg : String := "无法获取当前会话 ID，请稍后重试"

def processingMsg : String := "正在插入记忆..."

/-- The `/lmput` JSON-parse failure reply (the Python reply also embeds the
decoder's error detail, which is not modelled). -/
def jsonParseFailMsg : String := "JSON 解析失败"

/-- Model of `float(data.get("importance", self._default_importance))`: the default
needs no conversion, a present value goes through float(). -/
def lmputImportance (env : Env) (kvs : List (String × JValue)) : Option ℚ :=
  match objGet kvs "importance" with
  | none => some env.defaultImportance
  | some v => pyFloat v

/-- Model of `", ".join(data["topics"])`: joining succeeds only when every element is
a string; otherwise join raises TypeError. -/
def pyJoinComma (vs : List JValue) : Option String :=
  if vs.all (fun v => match v with | .str _ => true | _ => false)
  then some (String.intercalate ", " (vs.map pyStr))
  else none

/-- The success reply of `/lmput` (Python float formatting of the importance
is approximated by the rational rendering). -/
def lmputSuccessReply (id : String) (imp : ℚ) (topicsStr sentiment text : String) : String :=
  "记忆插入成功\nID: " ++ id ++ "\n重要性: " ++ toString imp ++ "\n主题: " ++ topicsStr
    ++ "\n情感: " ++ sentiment ++ "\n内容: " ++ pyTake 100 text
    ++ (if 100 < text.length then "..." else "")

/-- An `/lmput` run after JSON parsing: the plain_result replies yielded, the
add_memory call (when one was made), whether an exception escaped the
command, and the cache afterwards. -/
structure LmputOut where
  replies : List String
  addMemoryCall : Option AddMemoryArgs
  raised : Bool
  newCache : Option EngineHandle

/-- The tail of `/lmput` after all field validation passed: session check,
metadata assembly, discovery, importance conversion, connection check, write.
`raised := true` marks the unguarded float() conversion raising (line 635)
and the KeyError-style accesses that cannot be reached after validation. -/
def lmputInsert (env : Env) (kvs : List (String × JValue)) (memory_text : String)
    (ts ks : List JValue) (s session_id : String) (persona_id : Option String) : LmputOut :=
  if session_id = "" then ⟨[noSessionMsg], none, false, env.cache⟩
  else
    let canonical : JValue :=
      match objGet kvs "canonical_summary" with
      | none => .str (canonicalSummary memory_text ks)
      | some c => c
    let md : RichMetadata :=
      ⟨ts, ks, s, "private_chat", canonical,
        (objGet kvs "persona_summary").getD (.str memory_text), "v2", "normal"⟩
    let d := discoverMemoryEngine env.cache env.registry
    match d.found with
    | none => ⟨[processingMsg, engineNotFoundReplyMsg], none, false, d.newCache⟩
    | some me =>
      match lmputImportance env kvs with
      | none => ⟨[processingMsg], none, true, d.newCache⟩
      | some v =>
        let imp := clamp v
        let e := ensureDbConnection d.newCache me
        if e.ok = false then ⟨[processingMsg, dbFailMsg], none, false, e.newCache⟩
        else
          let args : AddMemoryArgs := ⟨memory_text, session_id, persona_id, imp, md⟩
          match env.addOutcome with
          | .ok id =>
            match pyJoinComma ts with
            | some tstr =>
              ⟨[processingMsg, lmputSuccessReply id imp tstr s memory_text],
                some args, false, e.newCache⟩
            | none => ⟨[processingMsg, insertFailMsg "TypeError"], some args, false, e.newCache⟩
          | .raises m => ⟨[processingMsg, insertFailMsg m], some args, false, e.newCache⟩

/-- Field validation of `/lmput` on an object that passed the required-field
check: text truthy and non-blank, topics and key_facts lists, sentiment one
of the three accepted values. -/
def lmputObj (env : Env) (kvs : List (String × JValue)) (session_id : String)
    (persona_id : Option String) : LmputOut :=
  match objGet kvs "text" with
  | none => ⟨[], none, true, env.cache⟩
  | some tv =>
    if pyTruthy tv = false ∨ pyStrip (pyStr tv) = "" then
      ⟨[textEmptyMsg], none, false, env.cache⟩
    else
      let memory_text := pyStrip (pyStr tv)
      match objGet kvs "topics" with
      | none => ⟨[], none, true, env.cache⟩
      | some (.arr ts) =>
        match objGet kvs "key_facts" with
        | none => ⟨[], none, true, env.cache⟩
        | some (.arr ks) =>
          match objGet kvs "sentiment" with
          | none => ⟨[], none, true, env.cache⟩
          | some (.str s) =>
            if s ∈ validSentiments then
              lmputInsert env kvs memory_text ts ks s session_id persona_id
            else ⟨[sentimentTypeMsg], none, false, env.cache⟩
          | some _ => ⟨[sentimentTypeMsg], none, false, env.cache⟩
        | some _ => ⟨[keyFactsTypeMsg], none, false, env.cache⟩
      | some _ => ⟨[topicsTypeMsg], none, false, env.cache⟩

/-- The body of `/lmput` on a parsed JSON value.  The required-field loop
(`field not in data`) raises TypeError for non-container values; for arrays
and strings it performs Python membership, and a fully "passing" non-dict
then raises on `data["text"]`.  Both raises escape the command. -/
def lmputWithData (env : Env) (data : JValue) (session_id : String)
    (persona_id : Option String) : LmputOut :=
  match data with
  | .num _ => ⟨[], none, true, env.cache⟩
  | .bool _ => ⟨[], none, true, env.cache⟩
  | .null => ⟨[], none, true, env.cache⟩
  | .str s =>
    let missing := requiredFields.filter (fun k => !(pyContainsB (.str s) k))
    if missing.isEmpty = false then ⟨[missingFieldsMsg missing], none, false, env.cache⟩
    else ⟨[], none, true, env.cache⟩
  | .arr xs =>
    let missing := requiredFields.filter (fun k => !(pyContainsB (.arr xs) k))
    if missing.isEmpty = false then ⟨[missingFieldsMsg missing], none, false, env.cache⟩
    else ⟨[], none, true, env.cache⟩
  | .obj kvs =>
    let missing := requiredFields.filter (fun k => !(pyContainsB (.obj kvs) k))
    if missing.isEmpty = false then ⟨[missingFieldsMsg missing], none, false, env.cache⟩
    else lmputObj env kvs session_id persona_id

/-- The `/lmput` command from the captured JSON text: strip, json.loads (a decode error
is reported immediately), then the validated insertion. -/
def lmputProcess (env : Env) (json_str session_id : String)
    (persona_id : Option String) : LmputOut :=
  match json_loads (pyStrip json_str) with
  | none => ⟨[jsonParseFailMsg], none, false, env.cache⟩
  | some data => lmputWithData env data session_id persona_id

/-!
Concrete fixtures used by the witness and counterexample theorems.
-/

/-- A DocumentStorage whose connection is live. -/
def liveStorage : DocStorage := ⟨some (), .sets (some ())⟩

/-- A fully initialized engine handle with a live connection. -/
def liveEngine : EngineHandle := ⟨some ⟨some ⟨some ⟨some liveStorage⟩⟩⟩⟩

/-- A registry in which the name lookup finds an initialized LivingMemory
plugin owning liveEngine. -/
def liveRegistry : Registry := ⟨some ⟨some ⟨"LivingMemoryPlugin", some ⟨some liveEngine⟩⟩⟩, []⟩

/-- An environment with a reachable engine, default importance 0.8 and a
successful write, parameterized by the provider behaviour. -/
def liveEnv (p : ProviderOutcome) : Env := ⟨liveRegistry, none, 4 / 5, p, .ok "42"⟩

/-- A 4097-character text whose trimmed length exceeds the 4096 limit. -/
def bigText : String := String.mk (List.replicate 4097 'a')

/-- An LLM reply that is valid JSON with explicitly empty topics and
key_facts lists. -/
def emptyListsReply : String :=
  "\x7b\"topics\": [], \"key_facts\": [], \"sentiment\": \"neutral\"\x7d"

/-- A well-formed `/lmput` payload without optional fields. -/
def lmputGoodKvs : List (String × JValue) :=
  [("text", .str "hello"), ("topics", .arr [.str "t"]), ("key_facts", .arr [.str "f1"]),
   ("sentiment", .str "neutral")]

/-- A well-formed `/lmput` payload with a caller-supplied canonical summary. -/
def lmputCanonKvs : List (String × JValue) :=
  [("text", .str "hello"), ("topics", .arr [.str "t"]), ("key_facts", .arr [.str "f1"]),
   ("sentiment", .str "neutral"), ("canonical_summary", .str "CUSTOM")]

/-- A `/lmput` payload whose optional importance is a list, which float()
cannot convert. -/
def lmputBadImportanceKvs : List (String × JValue) :=
  [("text", .str "hello"), ("topics", .arr [.str "t"]), ("key_facts", .arr [.str "f"]),
   ("sentiment", .str "neutral"), ("importance", .arr [])]


/-!
Helper lemmas: characterizations of the add_memory call arguments.
-/

/-- When `insert_memory` reaches the write step, the add_memory arguments are
determined by the trimmed text, the clamped importance and the enrichment
result (missing enrichment falls back to the excerpt/full-text defaults). -/
theorem insertMemory_call_spec (env : Env) (text sid : String) (pid : Option String)
    (imp : Option ℚ) (args : AddMemoryArgs)
    (h : (insertMemory env text sid pid imp).addMemoryCall = some args) :
    args.content = pyStrip text ∧ args.session_id = sid ∧ args.persona_id = pid ∧
    args.importance = clamp (imp.getD env.defaultImportance) ∧
    args.metadata =
      (match analyzeWithLlm (pyStrip text) env.provider with
       | .empty =>
         ⟨[.str (pyTake 50 (pyStrip text))], [.str (pyStrip text)], "neutral", "private_chat",
           .str (canonicalSummary (pyStrip text) [.str (pyStrip text)]),
           .str (pyStrip text), "v2", "normal"⟩
       | .ok tp kf s =>
         ⟨tp, kf, s, "private_chat", .str (canonicalSummary (pyStrip text) kf),
           .str (pyStrip text), "v2", "normal"⟩) := by
  unfold insertMemory at h
  repeat' (first | split at h | simp only [] at h)
  all_goals simp only [Option.some.injEq, reduceCtorEq] at h
  all_goals (subst h; simp_all)

/-- When the tail of `/lmput` reaches the write step, the importance
conversion succeeded and the add_memory arguments are exactly the validated
fields with the computed-or-verbatim canonical summary. -/
theorem lmputInsert_call_spec (env : Env) (kvs : List (String × JValue))
    (memory_text : String) (ts ks : List JValue) (s sid : String) (pid : Option String)
    (args : AddMemoryArgs)
    (h : (lmputInsert env kvs memory_text ts ks s sid pid).addMemoryCall = some args) :
    ∃ v, lmputImportance env kvs = some v ∧
      args = ⟨memory_text, sid, pid, clamp v,
        ⟨ts, ks, s, "private_chat",
          (match objGet kvs "canonical_summary" with
           | none => .str (canonicalSummary memory_text ks)
           | some c => c),
          (objGet kvs "persona_summary").getD (.str memory_text), "v2", "normal"⟩⟩ := by
  unfold lmputInsert at h
  repeat' (first | split at h | simp only [] at h)
  all_goals simp only [Option.some.injEq, reduceCtorEq] at h
  all_goals (subst h; exact ⟨_, by assumption, by simp_all⟩)

/-- The `/lmput` field validation lets a write happen only with list-typed
topics and key_facts and a valid string sentiment, passed through verbatim. -/
theorem lmputObj_call_spec (env : Env) (kvs : List (String × JValue)) (sid : String)
    (pid : Option String) (args : AddMemoryArgs)
    (h : (lmputObj env kvs sid pid).addMemoryCall = some args) :
    ∃ tv ts ks s v,
      objGet kvs "text" = some tv ∧
      objGet kvs "topics" = some (.arr ts) ∧
      objGet kvs "key_facts" = some (.arr ks) ∧
      objGet kvs "sentiment" = some (.str s) ∧
      s ∈ validSentiments ∧
      lmputImportance env kvs = some v ∧
      args = ⟨pyStrip (pyStr tv), sid, pid, clamp v,
        ⟨ts, ks, s, "private_chat",
          (match objGet kvs "canonical_summary" with
           | none => .str (canonicalSummary (pyStrip (pyStr tv)) ks)
           | some c => c),
          (objGet kvs "persona_summary").getD (.str (pyStrip (pyStr tv))), "v2", "normal"⟩⟩ := by
  unfold lmputObj at h
  repeat' (first | split at h | simp only [] at h)
  all_goals (try simp only [Option.some.injEq, reduceCtorEq] at h)
  all_goals
    (obtain ⟨v, himp, hargs⟩ := lmputInsert_call_spec _ _ _ _ _ _ _ _ _ h
     subst hargs
     exact ⟨_, _, _, _, v, by assumption, by assumption, by assumption, by assumption,
       by assumption, himp, rfl⟩)

/-- An `/lmput` run on a parsed object issues a write only through `lmputObj`. -/
theorem lmputWithData_obj_call (env : Env) (kvs : List (String × JValue)) (sid : String)
    (pid : Option String) (args : AddMemoryArgs)
    (h : (lmputWithData env (.obj kvs) sid pid).addMemoryCall = some args) :
    (lmputObj env kvs sid pid).addMemoryCall = some args := by
  unfold lmputWithData at h
  repeat' (first | split at h | simp only [] at h)
  all_goals simp_all

/-- Non-space characters are kept by the whitespace dropWhile. -/
theorem dropWhile_spaces_replicate (n : Nat) :
    (List.replicate n 'a').dropWhile isPySpace = List.replicate n 'a' := by
  cases n with
  | zero => rfl
  | succ m =>
    rw [List.replicate_succ, List.dropWhile_cons]
    simp [show isPySpace 'a' = false from rfl]

/-- bigText contains no surrounding whitespace, so strip keeps it intact. -/
theorem pyStrip_bigText : pyStrip bigText = bigText := by
  show String.mk _ = _
  rw [show bigText.data = List.replicate 4097 'a' from rfl]
  rw [dropWhile_spaces_replicate, List.reverse_replicate, dropWhile_spaces_replicate,
    List.reverse_replicate]
  rfl

/-- The trimmed length of bigText. -/
theorem bigText_length : bigText.length = 4097 := by
  show (List.replicate 4097 'a').length = 4097
  exact List.length_replicate _ _

/-- The Python max/min clamp agrees with the order-theoretic clamp. -/
theorem clamp_eq_max_min (q : ℚ) : clamp q = max 0 (min 1 q) := by
  unfold clamp pyMax pyMin
  by_cases h1 : (1 : ℚ) ≤ q
  · rw [if_pos h1, min_eq_left h1, if_neg (by norm_num : ¬ (1 : ℚ) ≤ 0),
      max_eq_right (by norm_num : (0 : ℚ) ≤ 1)]
  · rw [if_neg h1, min_eq_right (le_of_not_le h1)]
    by_cases h0 : q ≤ 0
    · rw [if_pos h0, max_eq_left h0]
    · rw [if_neg h0, max_eq_right (le_of_not_le h0)]

/-- The sentiment produced by the enrichment validation is always one of the
three accepted values. -/
theorem processObj_sentiment_valid (text : String) (kvs : List (String × JValue)) :
    (processObj text kvs).2.2 = "positive" ∨ (processObj text kvs).2.2 = "negative" ∨
      (processObj text kvs).2.2 = "neutral" := by
  unfold processObj
  simp only []
  split
  · rename_i s hs
    split
    · rename_i hmem
      simp only [validSentiments, List.mem_cons, List.mem_singleton] at hmem
      rcases hmem with h | h | h | h
      · exact Or.inl h
      · exact Or.inr (Or.inl h)
      · exact Or.inr (Or.inr h)
      · exact absurd h (by simp)
    · exact Or.inr (Or.inr rfl)
  · exact Or.inr (Or.inr rfl)

/-- A discovery call that starts with an empty cache consults the registry. -/
theorem discover_scanned_of_none (reg : Registry) :
    (discoverMemoryEngine none reg).scanned = true := by
  unfold discoverMemoryEngine discoverScan
  repeat' (first | split | simp only [])
  all_goals first | rfl | simp_all

/-- The class-name matching loop finds nothing when no registered instance
has the LivingMemoryPlugin runtime type name. -/
theorem findStar_eq_none (l : List StarMetadata)
    (h : ∀ m ∈ l, ∀ so, m.star_cls = some so → so.className ≠ "LivingMemoryPlugin") :
    findStar l = none := by
  induction l with
  | nil => rfl
  | cons m rest ih =>
    unfold findStar
    cases hsc : m.star_cls with
    | none => exact ih (fun m2 hm2 => h m2 (List.mem_cons_of_mem _ hm2))
    | some so =>
      show (if so.className = "LivingMemoryPlugin" then some so else findStar rest) = none
      rw [if_neg (h m (List.mem_cons_self _ _) so hsc)]
      exact ih (fun m2 hm2 => h m2 (List.mem_cons_of_mem _ hm2))

/-!
The claims.
-/

/-- C3: the canonical summary of content "C" with key facts f1, f2 is
"C | f1；f2"; only the first five facts are ever joined (shown concretely for
six facts and in general); and `/lmput` passes a caller-supplied
canonical_summary into the metadata verbatim. -/
theorem claim_C3 :
    canonicalSummary "C" [.str "f1", .str "f2"] = "C | f1；f2" ∧
    canonicalSummary "C" [.str "f1", .str "f2", .str "f3", .str "f4", .str "f5", .str "f6"]
      = "C | f1；f2；f3；f4；f5" ∧
    (∀ text facts, canonicalSummary text facts = canonicalSummary text (facts.take 5)) ∧
    (∀ env kvs sid pid args c,
       (lmputWithData env (.obj kvs) sid pid).addMemoryCall = some args →
       objGet kvs "canonical_summary" = some c →
       args.metadata.canonical_summary = c) := by
  refine ⟨rfl, rfl, ?_, ?_⟩
  · intro text facts
    cases facts with
    | nil => rfl
    | cons f rest => simp [canonicalSummary, List.take_take]
  · intro env kvs sid pid args c h hc
    obtain ⟨tv, ts, ks, s, v, _, _, _, _, _, _, hargs⟩ :=
      lmputObj_call_spec env kvs sid pid args (lmputWithData_obj_call env kvs sid pid args h)
    subst hargs
    simp [hc]

/-- Witness for C3: the general five-fact cap at a concrete list, and the
verbatim canonical summary on a concrete `/lmput` payload. -/
theorem claim_C3_witness :
    canonicalSummary "x" [.str "a"] = canonicalSummary "x" ([JValue.str "a"].take 5) ∧
    (lmputWithData (liveEnv .noProvider) (.obj lmputCanonKvs) "s" none).addMemoryCall.map
      (fun a => a.metadata.canonical_summary) = some (.str "CUSTOM") := by
  constructor
  · exact claim_C3.2.2.1 "x" [.str "a"]
  · cases hcall : (lmputWithData (liveEnv .noProvider) (.obj lmputCanonKvs) "s" none
        ).addMemoryCall with
    | none =>
      have hs : (lmputWithData (liveEnv .noProvider) (.obj lmputCanonKvs) "s" none
          ).addMemoryCall.isSome = true := rfl
      rw [hcall] at hs
      simp at hs
    | some a =>
      have h := claim_C3.2.2.2 (liveEnv .noProvider) lmputCanonKvs "s" none a
        (.str "CUSTOM") hcall rfl
      simp [h]

/-- C7: every insertion passes max(0, min(1, v)) to add_memory, v being the
caller value (or, in `/lmput`, its float conversion) or the configured
default when absent; the clamp is idempotent and, being a Lean function on
the field modelling Python floats, total. -/
theorem claim_C7 :
    (∀ q : ℚ, clamp q = max 0 (min 1 q)) ∧
    (∀ env text sid pid imp args,
       (insertMemory env text sid pid imp).addMemoryCall = some args →
       args.importance = clamp (imp.getD env.defaultImportance)) ∧
    (∀ env kvs sid pid args,
       (lmputWithData env (.obj kvs) sid pid).addMemoryCall = some args →
       ∃ v, lmputImportance env kvs = some v ∧ args.importance = clamp v) ∧
    (∀ q : ℚ, clamp (clamp q) = clamp q) := by
  refine ⟨clamp_eq_max_min, ?_, ?_, ?_⟩
  · intro env text sid pid imp args h
    exact (insertMemory_call_spec env text sid pid imp args h).2.2.2.1
  · intro env kvs sid pid args h
    obtain ⟨tv, ts, ks, s, v, _, _, _, _, _, himp, hargs⟩ :=
      lmputObj_call_spec env kvs sid pid args (lmputWithData_obj_call env kvs sid pid args h)
    exact ⟨v, himp, by rw [hargs]⟩
  · intro q
    have h1 : clamp q ≤ 1 := by
      rw [clamp_eq_max_min]
      exact max_le (by norm_num) (min_le_left _ _)
    have h0 : (0 : ℚ) ≤ clamp q := by
      rw [clamp_eq_max_min]
      exact le_max_left _ _
    rw [clamp_eq_max_min (clamp q), min_eq_right h1, max_eq_right h0]

/-- Witness for C7: an out-of-range importance 2 is stored as 1, a missing
`/lmput` importance becomes the default 0.8, and the clamp is idempotent at
5/2. -/
theorem claim_C7_witness :
    (insertMemory (liveEnv .noProvider) "hi" "s" none (some 2)).addMemoryCall.map
        (fun a => a.importance) = some 1 ∧
    (lmputWithData (liveEnv .noProvider) (.obj lmputGoodKvs) "s" none).addMemoryCall.map
        (fun a => a.importance) = some (4 / 5) ∧
    clamp (clamp (5 / 2)) = clamp (5 / 2) := by
  refine ⟨?_, ?_, claim_C7.2.2.2 _⟩
  · cases hcall : (insertMemory (liveEnv .noProvider) "hi" "s" none (some 2)
        ).addMemoryCall with
    | none =>
      have hs : (insertMemory (liveEnv .noProvider) "hi" "s" none (some 2)
          ).addMemoryCall.isSome = true := rfl
      rw [hcall] at hs
      simp at hs
    | some a =>
      have h := claim_C7.2.1 (liveEnv .noProvider) "hi" "s" none (some 2) a hcall
      show some a.importance = some 1
      rw [h]
      congr 1
  · cases hcall : (lmputWithData (liveEnv .noProvider) (.obj lmputGoodKvs) "s" none
        ).addMemoryCall with
    | none =>
      have hs : (lmputWithData (liveEnv .noProvider) (.obj lmputGoodKvs) "s" none
          ).addMemoryCall.isSome = true := rfl
      rw [hcall] at hs
      simp at hs
    | some a =>
      obtain ⟨v, himp, hval⟩ :=
        claim_C7.2.2.1 (liveEnv .noProvider) lmputGoodKvs "s" none a hcall
      have hv : v = 4 / 5 := by
        rw [show lmputImportance (liveEnv .noProvider) lmputGoodKvs
            = some ((liveEnv .noProvider).defaultImportance) from rfl] at himp
        exact ((Option.some.injEq _ _).mp himp).symm
      show some a.importance = some (4 / 5)
      rw [hval, hv]
      congr 1
      rw [clamp_eq_max_min]
      rw [min_eq_right (by norm_num : (4 : ℚ) / 5 ≤ 1),
        max_eq_right (by norm_num : (0 : ℚ) ≤ 4 / 5)]

/-- C8: an input whose trimmed form is empty yields the empty-text failure
without any engine lookup; an input whose trimmed length exceeds 4096 yields
a failure whose message embeds that exact trimmed length, likewise without an
engine lookup. -/
theorem claim_C8 :
    (∀ env text sid pid imp, pyStrip text = "" →
       insertMemory env text sid pid imp =
         ⟨⟨false, emptyTextMsg, none⟩, false, none, env.cache⟩) ∧
    (∀ env text sid pid imp, 4096 < (pyStrip text).length →
       (insertMemory env text sid pid imp).result.success = false ∧
       (insertMemory env text sid pid imp).result.message
         = tooLongMsg (pyStrip text).length ∧
       (insertMemory env text sid pid imp).engineLookup = false) := by
  constructor
  · intro env text sid pid imp h
    simp [insertMemory, h]
  · intro env text sid pid imp hlen
    have hne : ¬ pyStrip text = "" := by
      intro e
      rw [e] at hlen
      simp at hlen
    simp [insertMemory, hne, hlen]

/-- Witness for C8: whitespace-only input, and a 4097-character input whose
reported length is 4097. -/
theorem claim_C8_witness :
    (insertMemory (liveEnv .noProvider) "   " "sess" none none).result.message = emptyTextMsg ∧
    (insertMemory (liveEnv .noProvider) "   " "sess" none none).engineLookup = false ∧
    (insertMemory (liveEnv .noProvider) bigText "sess" none none).result.success = false ∧
    (insertMemory (liveEnv .noProvider) bigText "sess" none none).result.message
      = tooLongMsg 4097 ∧
    (insertMemory (liveEnv .noProvider) bigText "sess" none none).engineLookup = false := by
  have h1 := claim_C8.1 (liveEnv .noProvider) "   " "sess" none none rfl
  have hlen : 4096 < (pyStrip bigText).length := by
    rw [pyStrip_bigText, bigText_length]
    norm_num
  have h2 := claim_C8.2 (liveEnv .noProvider) bigText "sess" none none hlen
  refine ⟨by rw [h1], by rw [h1], h2.1, ?_, h2.2.2⟩
  rw [h2.2.1, pyStrip_bigText, bigText_length]

/-- C9: an absent intermediate attribute anywhere in the probe chain, and an
exception from the re-initialization attempt, both make ensure_connection
return true without touching the cached handle (letting the write proceed). -/
theorem claim_C9 :
    (∀ cache me, me.hybrid_retriever = none →
       ensureDbConnection cache me = ⟨true, cache, 0⟩) ∧
    (∀ cache me hybrid, me.hybrid_retriever = some hybrid →
       hybrid.vector_retriever = none → ensureDbConnection cache me = ⟨true, cache, 0⟩) ∧
    (∀ cache me hybrid vecRet, me.hybrid_retriever = some hybrid →
       hybrid.vector_retriever = some vecRet → vecRet.faiss_db = none →
       ensureDbConnection cache me = ⟨true, cache, 0⟩) ∧
    (∀ cache me hybrid vecRet faissDb, me.hybrid_retriever = some hybrid →
       hybrid.vector_retriever = some vecRet → vecRet.faiss_db = some faissDb →
       faissDb.document_storage = none → ensureDbConnection cache me = ⟨true, cache, 0⟩) ∧
    (∀ cache me hybrid vecRet faissDb docStorage, me.hybrid_retriever = some hybrid →
       hybrid.vector_retriever = some vecRet → vecRet.faiss_db = some faissDb →
       faissDb.document_storage = some docStorage → docStorage.engine = none →
       docStorage.reinit = .raises → ensureDbConnection cache me = ⟨true, cache, 1⟩) := by
  refine ⟨?_, ?_, ?_, ?_, ?_⟩
  · intro cache me h1
    simp [ensureDbConnection, h1]
  · intro cache me hybrid h1 h2
    simp [ensureDbConnection, h1, h2]
  · intro cache me hybrid vecRet h1 h2 h3
    simp [ensureDbConnection, h1, h2, h3]
  · intro cache me hybrid vecRet faissDb h1 h2 h3 h4
    simp [ensureDbConnection, h1, h2, h3, h4]
  · intro cache me hybrid vecRet faissDb docStorage h1 h2 h3 h4 h5 h6
    simp [ensureDbConnection, h1, h2, h3, h4, h5, h6]

/-- Witness for C9: each absent-intermediate shape and the raising
re-initialization, all with a non-empty cache that is left unchanged. -/
theorem claim_C9_witness :
    ensureDbConnection (some liveEngine) ⟨none⟩ = ⟨true, some liveEngine, 0⟩ ∧
    ensureDbConnection (some liveEngine) ⟨some ⟨none⟩⟩ = ⟨true, some liveEngine, 0⟩ ∧
    ensureDbConnection (some liveEngine) ⟨some ⟨some ⟨none⟩⟩⟩ = ⟨true, some liveEngine, 0⟩ ∧
    ensureDbConnection (some liveEngine) ⟨some ⟨some ⟨some ⟨none⟩⟩⟩⟩
      = ⟨true, some liveEngine, 0⟩ ∧
    ensureDbConnection (some liveEngine) ⟨some ⟨some ⟨some ⟨some ⟨none, .raises⟩⟩⟩⟩⟩
      = ⟨true, some liveEngine, 1⟩ :=
  ⟨claim_C9.1 _ _ rfl,
   claim_C9.2.1 _ _ _ rfl rfl,
   claim_C9.2.2.1 _ _ _ _ rfl rfl rfl,
   claim_C9.2.2.2.1 _ _ _ _ _ rfl rfl rfl rfl,
   claim_C9.2.2.2.2 _ _ _ _ _ _ rfl rfl rfl rfl rfl rfl⟩

/-- C4: with the probe chain intact and document_storage.engine absent,
ensure_connection awaits exactly one re-initialization; if the engine
attribute becomes present the call returns true with the cached handle
untouched; if it stays absent the call returns false, clears the cache, and
the next locate consults the registry (while a retained cache would have been
returned without any scan). -/
theorem claim_C4 (cache : Option EngineHandle) (d : DocStorage) (hengine : d.engine = none) :
    (ensureDbConnection cache ⟨some ⟨some ⟨some ⟨some d⟩⟩⟩⟩).initCalls = 1 ∧
    (∀ u, d.reinit = .sets (some u) →
       ensureDbConnection cache ⟨some ⟨some ⟨some ⟨some d⟩⟩⟩⟩ = ⟨true, cache, 1⟩) ∧
    (d.reinit = .sets none →
       ensureDbConnection cache ⟨some ⟨some ⟨some ⟨some d⟩⟩⟩⟩ = ⟨false, none, 1⟩ ∧
       (∀ reg, (discoverMemoryEngine none reg).scanned = true) ∧
       (∀ e reg, discoverMemoryEngine (some e) reg = ⟨some e, some e, [], false⟩)) := by
  refine ⟨?_, ?_, ?_⟩
  · cases hr : d.reinit with
    | raises => simp [ensureDbConnection, hengine, hr]
    | sets e => cases e <;> simp [ensureDbConnection, hengine, hr]
  · intro u hr
    simp [ensureDbConnection, hengine, hr]
  · intro hr
    exact ⟨by simp [ensureDbConnection, hengine, hr], discover_scanned_of_none,
      fun e reg => rfl⟩

/-- Witness for C4: a successful and a failed re-initialization on concrete
storages, starting from a non-empty cache. -/
theorem claim_C4_witness :
    (ensureDbConnection (some liveEngine)
      ⟨some ⟨some ⟨some ⟨some ⟨none, .sets (some ())⟩⟩⟩⟩⟩).initCalls = 1 ∧
    ensureDbConnection (some liveEngine) ⟨some ⟨some ⟨some ⟨some ⟨none, .sets (some ())⟩⟩⟩⟩⟩
      = ⟨true, some liveEngine, 1⟩ ∧
    ensureDbConnection (some liveEngine) ⟨some ⟨some ⟨some ⟨some ⟨none, .sets none⟩⟩⟩⟩⟩
      = ⟨false, none, 1⟩ ∧
    (discoverMemoryEngine none liveRegistry).scanned = true ∧
    discoverMemoryEngine (some liveEngine) liveRegistry
      = ⟨some liveEngine, some liveEngine, [], false⟩ := by
  have h1 := claim_C4 (some liveEngine) ⟨none, .sets (some ())⟩ rfl
  have h2 := (claim_C4 (some liveEngine) ⟨none, .sets none⟩ rfl).2.2 rfl
  exact ⟨h1.1, h1.2.1 () rfl, h2.1, h2.2.1 liveRegistry, h2.2.2 liveEngine liveRegistry⟩

/-- C6: the three discovery failure modes are reported with pairwise
distinct messages: plugin not found in the registry, plugin found with an
absent initializer, and plugin found with an absent memory_engine. -/
theorem claim_C6 :
    notFoundLog ≠ initializerNoneLog ∧ notFoundLog ≠ engineNoneLog ∧
    initializerNoneLog ≠ engineNoneLog ∧
    (∀ so, so.initializer = none → extractEngine so = (none, [initializerNoneLog])) ∧
    (∀ so ini, so.initializer = some ini → ini.memory_engine = none →
       extractEngine so = (none, [engineNoneLog])) ∧
    (∀ reg, reg.byName = none → reg.allStars ≠ [] →
       (∀ m ∈ reg.allStars, ∀ so, m.star_cls = some so →
          so.className ≠ "LivingMemoryPlugin") →
       discoverMemoryEngine none reg = ⟨none, none, [notFoundLog], true⟩) := by
  refine ⟨by decide, by decide, by decide, ?_, ?_, ?_⟩
  · intro so h
    simp [extractEngine, h]
  · intro so ini h1 h2
    simp [extractEngine, h1, h2]
  · intro reg hb hne hnm
    unfold discoverMemoryEngine
    rw [hb]
    unfold discoverScan
    rw [if_neg (by simpa using hne), findStar_eq_none reg.allStars hnm]

/-- Witness for C6: the two extraction failures and a registry holding only
an unrelated plugin. -/
theorem claim_C6_witness :
    extractEngine ⟨"LivingMemoryPlugin", none⟩ = (none, [initializerNoneLog]) ∧
    extractEngine ⟨"LivingMemoryPlugin", some ⟨none⟩⟩ = (none, [engineNoneLog]) ∧
    discoverMemoryEngine none ⟨none, [⟨some ⟨"OtherPlugin", none⟩⟩]⟩
      = ⟨none, none, [notFoundLog], true⟩ := by
  refine ⟨claim_C6.2.2.2.1 _ rfl, claim_C6.2.2.2.2.1 _ ⟨none⟩ rfl rfl, ?_⟩
  refine claim_C6.2.2.2.2.2 _ rfl (by simp) ?_
  intro m hm so hso
  simp at hm
  rw [hm] at hso
  simp at hso
  subst hso
  decide

/-- C1 counterexample: an LLM reply that is a valid JSON object carrying
explicitly empty topics and key_facts lists passes the isinstance(..., list)
checks unchanged, so the insertion reaches the write step with an empty
topics sequence and an empty key_facts sequence in the metadata handed to
add_memory — refuting the claimed non-emptiness invariant. -/
theorem claim_C1_counterexample :
    (insertMemory (liveEnv (.replies emptyListsReply)) "hello world" "sess" none none
      ).addMemoryCall.map
      (fun a => (a.metadata.topics.isEmpty, a.metadata.key_facts.isEmpty))
      = some (true, true) := rfl

/-- C1 (amended): for every insertion that reaches the write step, the
fallbacks used when enrichment yields nothing (a 50-character excerpt as the
single topic, the full text as the single key fact) are non-empty, and an
enrichment result or `/lmput` caller value that is itself a list is passed
through verbatim — so the metadata sequences are non-empty except when an
explicitly empty list was supplied. -/
theorem claim_C1_amended :
    (∀ env text sid pid imp args,
       (insertMemory env text sid pid imp).addMemoryCall = some args →
       (analyzeWithLlm (pyStrip text) env.provider = .empty →
          args.metadata.topics = [.str (pyTake 50 (pyStrip text))] ∧
          args.metadata.key_facts = [.str (pyStrip text)] ∧
          args.metadata.topics ≠ [] ∧ args.metadata.key_facts ≠ []) ∧
       (∀ tp kf s, analyzeWithLlm (pyStrip text) env.provider = .ok tp kf s →
          args.metadata.topics = tp ∧ args.metadata.key_facts = kf)) ∧
    (∀ env kvs sid pid args ts ks,
       (lmputWithData env (.obj kvs) sid pid).addMemoryCall = some args →
       objGet kvs "topics" = some (.arr ts) → objGet kvs "key_facts" = some (.arr ks) →
       args.metadata.topics = ts ∧ args.metadata.key_facts = ks) := by
  constructor
  · intro env text sid pid imp args h
    have hmd := (insertMemory_call_spec env text sid pid imp args h).2.2.2.2
    constructor
    · intro hA
      rw [hA] at hmd
      rw [hmd]
      exact ⟨rfl, rfl, by simp, by simp⟩
    · intro tp kf s hA
      rw [hA] at hmd
      rw [hmd]
      exact ⟨rfl, rfl⟩
  · intro env kvs sid pid args ts ks h ht hk
    obtain ⟨tv, ts2, ks2, s, v, htv, ht2, hk2, hs2, hmem, himp, hargs⟩ :=
      lmputObj_call_spec env kvs sid pid args (lmputWithData_obj_call env kvs sid pid args h)
    have hts : ts = ts2 := by
      have := ht.symm.trans ht2
      simpa using this
    have hks : ks = ks2 := by
      have := hk.symm.trans hk2
      simpa using this
    rw [hargs, hts, hks]
    exact ⟨rfl, rfl⟩

/-- Witness for C1 (amended): with no provider the enrichment is empty and
both fallback sequences are the non-empty singletons; a concrete `/lmput`
payload passes its lists through. -/
theorem claim_C1_witness :
    (insertMemory (liveEnv .raises) "hi" "s" none none).addMemoryCall.map
        (fun a => (a.metadata.topics, a.metadata.key_facts))
      = some ([.str "hi"], [.str "hi"]) ∧
    (lmputWithData (liveEnv .noProvider) (.obj lmputGoodKvs) "s" none).addMemoryCall.map
        (fun a => (a.metadata.topics, a.metadata.key_facts))
      = some ([.str "t"], [.str "f1"]) := by
  constructor
  · cases hcall : (insertMemory (liveEnv .raises) "hi" "s" none none).addMemoryCall with
    | none =>
      have hs : (insertMemory (liveEnv .raises) "hi" "s" none none
          ).addMemoryCall.isSome = true := rfl
      rw [hcall] at hs
      simp at hs
    | some a =>
      have h := ((claim_C1_amended.1 (liveEnv .raises) "hi" "s" none none a hcall).1 rfl)
      show some (a.metadata.topics, a.metadata.key_facts) = _
      rw [h.1, h.2.1]
      rfl
  · cases hcall : (lmputWithData (liveEnv .noProvider) (.obj lmputGoodKvs) "s" none
        ).addMemoryCall with
    | none =>
      have hs : (lmputWithData (liveEnv .noProvider) (.obj lmputGoodKvs) "s" none
          ).addMemoryCall.isSome = true := rfl
      rw [hcall] at hs
      simp at hs
    | some a =>
      have h := claim_C1_amended.2 (liveEnv .noProvider) lmputGoodKvs "s" none a
        [.str "t"] [.str "f1"] hcall rfl rfl
      show some (a.metadata.topics, a.metadata.key_facts) = _
      rw [h.1, h.2]

/-- C2 counterexample: a provider reply that is not JSON makes
_analyze_with_llm return the empty mapping, which contains no topics or
key_facts at all — not a result with non-empty topics and key_facts as
claimed. -/
theorem claim_C2_counterexample :
    analyzeWithLlm "memory text" (.replies "this is not json") = .empty := rfl

/-- C2 (amended): the enrichment is a total function (never raises); a
non-JSON or truncated reply produces the empty mapping, whose defaults the
caller fills; a reply parsing to a JSON object has each missing or ill-typed
field replaced — topics by a non-empty excerpt singleton, key_facts by the
non-empty full-text singleton — and its sentiment is always one of positive,
negative, neutral. -/
theorem claim_C2_amended :
    (∀ text p, analyzeWithLlm text p = .empty ∨
       ∃ tp kf s, analyzeWithLlm text p = .ok tp kf s ∧
         (s = "positive" ∨ s = "negative" ∨ s = "neutral")) ∧
    (∀ text rt, json_loads (stripCodeFence rt) = none →
       analyzeWithLlm text (.replies rt) = .empty) ∧
    (∀ text kvs, getList kvs "topics" = none →
       (processObj text kvs).1 = [.str (pyTake 50 text)] ∧ (processObj text kvs).1 ≠ []) ∧
    (∀ text kvs, getList kvs "key_facts" = none →
       (processObj text kvs).2.1 = [.str text] ∧ (processObj text kvs).2.1 ≠ []) ∧
    (∀ text kvs, (processObj text kvs).2.2 = "positive" ∨
       (processObj text kvs).2.2 = "negative" ∨ (processObj text kvs).2.2 = "neutral") := by
  refine ⟨?_, ?_, ?_, ?_, processObj_sentiment_valid⟩
  · intro text p
    cases p with
    | noProvider => exact Or.inl rfl
    | raises => exact Or.inl rfl
    | replies rt =>
      have he : analyzeWithLlm text (.replies rt) = processReply text rt := rfl
      rw [he]
      unfold processReply
      by_cases hrt : rt = ""
      · rw [if_pos hrt]
        exact Or.inl rfl
      · rw [if_neg hrt]
        cases hj : json_loads (stripCodeFence rt) with
        | none => exact Or.inl rfl
        | some v =>
          cases v with
          | obj kvs =>
            refine Or.inr ⟨_, _, _, rfl, ?_⟩
            exact processObj_sentiment_valid text kvs
          | null => exact Or.inl rfl
          | bool b => exact Or.inl rfl
          | num q => exact Or.inl rfl
          | str s => exact Or.inl rfl
          | arr xs => exact Or.inl rfl
  · intro text rt hp
    have he : analyzeWithLlm text (.replies rt) = processReply text rt := rfl
    rw [he]
    unfold processReply
    by_cases hrt : rt = ""
    · rw [if_pos hrt]
    · rw [if_neg hrt, hp]
  · intro text kvs h
    unfold processObj
    simp [h]
  · intro text kvs h
    unfold processObj
    simp [h]

/-- Witness for C2 (amended): a non-JSON reply yields the empty mapping, and
an empty JSON object gets non-empty fallback topics and key_facts with a
neutral sentiment. -/
theorem claim_C2_witness :
    analyzeWithLlm "txt" (.replies "oops") = .empty ∧
    (processObj "txt" []).1 = [.str "txt"] ∧ (processObj "txt" []).1 ≠ [] ∧
    (processObj "txt" []).2.1 = [.str "txt"] ∧ (processObj "txt" []).2.1 ≠ [] ∧
    ((processObj "txt" []).2.2 = "positive" ∨ (processObj "txt" []).2.2 = "negative" ∨
      (processObj "txt" []).2.2 = "neutral") := by
  have h2 := claim_C2_amended.2.1 "txt" "oops" rfl
  have h3 := claim_C2_amended.2.2.1 "txt" [] rfl
  have h4 := claim_C2_amended.2.2.2.1 "txt" [] rfl
  exact ⟨h2, h3.1, h3.2, h4.1, h4.2, claim_C2_amended.2.2.2.2 "txt" []⟩

/-- C5 counterexample: a payload whose optional importance field is a list
passes all field validation, but the unguarded float() conversion at line 635
raises, so the exception escapes the command — no reply names the importance
field (only the progress notice was sent). -/
theorem claim_C5_counterexample :
    (lmputWithData (liveEnv .noProvider) (.obj lmputBadImportanceKvs) "sess" none).raised
      = true ∧
    (lmputWithData (liveEnv .noProvider) (.obj lmputBadImportanceKvs) "sess" none).replies
      = [processingMsg] := ⟨rfl, rfl⟩

/-- C5 (amended): malformed JSON, missing required fields (named in the
reply), an empty text, ill-typed topics, key_facts or sentiment are each
rejected immediately with the corresponding message and no exception; the
optional importance field, however, is not validated: a value float() cannot
convert raises an uncaught exception after validation has passed. -/
theorem claim_C5_amended :
    (∀ env s sid pid, json_loads (pyStrip s) = none →
       lmputProcess env s sid pid = ⟨[jsonParseFailMsg], none, false, env.cache⟩) ∧
    (∀ env kvs sid pid,
       (requiredFields.filter (fun k => !(pyContainsB (.obj kvs) k))) ≠ [] →
       lmputWithData env (.obj kvs) sid pid =
         ⟨[missingFieldsMsg (requiredFields.filter (fun k => !(pyContainsB (.obj kvs) k)))],
           none, false, env.cache⟩) ∧
    (∀ env kvs sid pid tv, objGet kvs "text" = some tv →
       (pyTruthy tv = false ∨ pyStrip (pyStr tv) = "") →
       lmputObj env kvs sid pid = ⟨[textEmptyMsg], none, false, env.cache⟩) ∧
    (∀ env kvs sid pid tv v, objGet kvs "text" = some tv →
       ¬(pyTruthy tv = false ∨ pyStrip (pyStr tv) = "") →
       objGet kvs "topics" = some v → v.isArr = false →
       lmputObj env kvs sid pid = ⟨[topicsTypeMsg], none, false, env.cache⟩) ∧
    (∀ env kvs sid pid tv ts v, objGet kvs "text" = some tv →
       ¬(pyTruthy tv = false ∨ pyStrip (pyStr tv) = "") →
       objGet kvs "topics" = some (.arr ts) →
       objGet kvs "key_facts" = some v → v.isArr = false →
       lmputObj env kvs sid pid = ⟨[keyFactsTypeMsg], none, false, env.cache⟩) ∧
    (∀ env kvs sid pid tv ts ks v, objGet kvs "text" = some tv →
       ¬(pyTruthy tv = false ∨ pyStrip (pyStr tv) = "") →
       objGet kvs "topics" = some (.arr ts) →
       objGet kvs "key_facts" = some (.arr ks) →
       objGet kvs "sentiment" = some v → sentimentOk v = false →
       lmputObj env kvs sid pid = ⟨[sentimentTypeMsg], none, false, env.cache⟩) ∧
    (∀ env kvs memory_text ts ks s sid pid me, sid ≠ "" →
       (discoverMemoryEngine env.cache env.registry).found = some me →
       lmputImportance env kvs = none →
       lmputInsert env kvs memory_text ts ks s sid pid =
         ⟨[processingMsg], none, true,
           (discoverMemoryEngine env.cache env.registry).newCache⟩) := by
  refine ⟨?_, ?_, ?_, ?_, ?_, ?_, ?_⟩
  · intro env s sid pid hp
    unfold lmputProcess
    rw [hp]
  · intro env kvs sid pid h
    unfold lmputWithData
    have he : (requiredFields.filter
        (fun k => !(pyContainsB (.obj kvs) k))).isEmpty = false := by
      cases hm : (requiredFields.filter (fun k => !(pyContainsB (.obj kvs) k))) with
      | nil => exact absurd hm h
      | cons a l => rfl
    simp only []
    rw [if_pos he]
  · intro env kvs sid pid tv htv hempty
    unfold lmputObj
    rw [htv]
    repeat' (first | split | simp only [])
    all_goals (try simp_all [JValue.isArr, sentimentOk, validSentiments])
  · intro env kvs sid pid tv v htv hne ht hv
    unfold lmputObj
    rw [htv]
    repeat' (first | split | simp only [])
    all_goals (try simp_all [JValue.isArr, sentimentOk, validSentiments])
    all_goals (try subst_vars)
    all_goals (try simp_all [JValue.isArr, sentimentOk, validSentiments])
  · intro env kvs sid pid tv ts v htv hne ht hk hv
    unfold lmputObj
    rw [htv]
    repeat' (first | split | simp only [])
    all_goals (try simp_all [JValue.isArr, sentimentOk, validSentiments])
    all_goals (try subst_vars)
    all_goals (try simp_all [JValue.isArr, sentimentOk, validSentiments])
  · intro env kvs sid pid tv ts ks v htv hne ht hk hs hv
    unfold lmputObj
    rw [htv]
    repeat' (first | split | simp only [])
    all_goals (try simp_all [JValue.isArr, sentimentOk, validSentiments])
    all_goals (try subst_vars)
    all_goals (try simp_all [JValue.isArr, sentimentOk, validSentiments])
  · intro env kvs memory_text ts ks s sid pid me hsid hfound himp
    unfold lmputInsert
    rw [if_neg hsid]
    repeat' (first | split | simp only [])
    all_goals simp_all

/-- Witness for C5 (amended): concrete payloads for each rejection branch and
the raising importance conversion. -/
theorem claim_C5_witness :
    lmputProcess (liveEnv .noProvider) "not json" "sess" none
      = ⟨[jsonParseFailMsg], none, false, none⟩ ∧
    lmputWithData (liveEnv .noProvider) (.obj []) "sess" none
      = ⟨[missingFieldsMsg ["text", "topics", "key_facts", "sentiment"]], none, false, none⟩ ∧
    lmputObj (liveEnv .noProvider) [("text", .str " ")] "sess" none
      = ⟨[textEmptyMsg], none, false, none⟩ ∧
    lmputObj (liveEnv .noProvider) [("text", .str "x"), ("topics", .str "t")] "sess" none
      = ⟨[topicsTypeMsg], none, false, none⟩ ∧
    lmputObj (liveEnv .noProvider)
        [("text", .str "x"), ("topics", .arr []), ("key_facts", .num 3)] "sess" none
      = ⟨[keyFactsTypeMsg], none, false, none⟩ ∧
    lmputObj (liveEnv .noProvider)
        [("text", .str "x"), ("topics", .arr []), ("key_facts", .arr []),
         ("sentiment", .str "happy")] "sess" none
      = ⟨[sentimentTypeMsg], none, false, none⟩ ∧
    lmputInsert (liveEnv .noProvider) lmputBadImportanceKvs "hello" [.str "t"] [.str "f"]
        "neutral" "sess" none
      = ⟨[processingMsg], none, true, some liveEngine⟩ := by
  refine ⟨?_, ?_, ?_, ?_, ?_, ?_, ?_⟩
  · exact claim_C5_amended.1 (liveEnv .noProvider) "not json" "sess" none rfl
  · exact claim_C5_amended.2.1 (liveEnv .noProvider) [] "sess" none (by decide)
  · exact claim_C5_amended.2.2.1 (liveEnv .noProvider) [("text", .str " ")] "sess" none
      (.str " ") rfl (Or.inr rfl)
  · exact claim_C5_amended.2.2.2.1 (liveEnv .noProvider)
      [("text", .str "x"), ("topics", .str "t")] "sess" none (.str "x") (.str "t") rfl
      (by decide) rfl rfl
  · exact claim_C5_amended.2.2.2.2.1 (liveEnv .noProvider)
      [("text", .str "x"), ("topics", .arr []), ("key_facts", .num 3)] "sess" none
      (.str "x") [] (.num 3) rfl (by decide) rfl rfl rfl
  · exact claim_C5_amended.2.2.2.2.2.1 (liveEnv .noProvider)
      [("text", .str "x"), ("topics", .arr []), ("key_facts", .arr []),
       ("sentiment", .str "happy")] "sess" none
      (.str "x") [] [] (.str "happy") rfl (by decide) rfl rfl rfl
      (by decide)
  · exact claim_C5_amended.2.2.2.2.2.2 (liveEnv .noProvider) lmputBadImportanceKvs "hello"
      [.str "t"] [.str "f"] "neutral" "sess" none liveEngine (by simp) rfl rfl

/-- C10: insert_memory is a total function of its arguments and environment
(no exception can escape: every callee failure is absorbed), always returns a
record with a boolean success and a string message, and its result carries a
memory_id exactly when success is true. -/
theorem claim_C10 (env : Env) (text sid : String) (pid : Option String) (imp : Option ℚ) :
    (insertMemory env text sid pid imp).result.memory_id.isSome
      = (insertMemory env text sid pid imp).result.success := by
  unfold insertMemory
  repeat' (first | split | simp only [])
  all_goals rfl

end LivingMemoryManual


